/-
Verification of the monday-merch e-commerce backend against its
natural-language specification.

The development shallowly embeds the Python source:
  * backend/app/services/order_service.py   (create_order)
  * backend/app/services/product_service.py (get_product_list)
  * backend/app/utils/pagination.py         (calculate_pagination)
  * backend/app/api/controllers.py          (create_user_order, fetch_products)
  * backend/app/models/domain.py            (User, Category, Product, Order, OrderItem)

Modelling conventions:
  * SQL NUMERIC(10,2) / Python Decimal values are modelled as ℚ (exact
    decimal arithmetic embeds into the rationals with no rounding).
  * Integer columns are modelled as ℤ where the code can drive them
    negative (inventory) and where the service accepts arbitrary ints
    (quantities); ids are ℕ.
  * The product table visible to one request's session is a `List Product`;
    SQLAlchemy's identity map (one shared object per primary key) is
    reflected by updating every list entry with the matching id — primary
    keys are unique, so exactly one entry is touched.
  * Python `Optional[str]` is `Option String`; Python `or`-truthiness on
    such values (where both None and "" are falsy) is the function `pyOr`.
  * `raise ValueError(...)` is the `Except` monad with an explicit error
    datatype distinguishing the two message shapes the service produces.
  * DB-assigned autoincrement ids (order.id, order_item.id) are elided:
    no claim mentions them.
-/
import Mathlib

/-- One row of the `products` table (models/domain.py, class Product).
`price` is NUMERIC(10,2) (exact decimal), `inventory` an integer column. -/
structure Product where
  id : Nat
  title : String
  price : ℚ
  inventory : Int
  category_id : Nat
deriving DecidableEq

/-- One row of the `categories` table (models/domain.py, class Category). -/
structure Category where
  id : Nat
  name : String
deriving DecidableEq

/-- The fields of `users` that the order path reads (models/domain.py, class User). -/
structure User where
  id : Nat
  street_address : Option String
  city : Option String
  state : Option String
  postal_code : Option String
  country : Option String
deriving DecidableEq

/-- One entry of the `items` list passed to create_order: a dict with
`product_id` and `quantity` keys (order_service.py lines 37, 46-47). -/
structure OrderReqItem where
  product_id : Nat
  quantity : Int
deriving DecidableEq

/-- The `shipping_address` dict passed to create_order (controllers.py 163-169,
order_service.py 78-82): five optional string entries. -/
structure ShippingAddress where
  shipping_street : Option String
  shipping_city : Option String
  shipping_state : Option String
  shipping_postal_code : Option String
  shipping_country : Option String
deriving DecidableEq

/-- The `orders` row constructed by create_order (order_service.py 74-83). -/
structure Order where
  user_id : Nat
  status : String
  total_amount : ℚ
  shipping_street : Option String
  shipping_city : Option String
  shipping_state : Option String
  shipping_postal_code : Option String
  shipping_country : Option String
deriving DecidableEq

/-- One `order_items` row constructed by create_order (order_service.py 90-95). -/
structure OrderItem where
  product_id : Nat
  quantity : Int
  price_at_purchase : ℚ
deriving DecidableEq

/-- The two `ValueError` shapes create_order raises (order_service.py 50, 55-58). -/
inductive OrderError where
  | productNotFound (product_id : Nat)
  | insufficientInventory (product_id : Nat) (available : Int) (requested : Int)
deriving DecidableEq

/-- Decidable equality for `Except` results, so concrete runs of the
embedded service can be checked by `decide`. -/
instance exceptDecidableEq {e a : Type} [DecidableEq e] [DecidableEq a] :
    DecidableEq (Except e a) := fun x y =>
  match x, y with
  | Except.error u, Except.error v =>
    if h : u = v then isTrue (congrArg Except.error h)
    else isFalse (fun hc => h (Except.error.inj hc))
  | Except.error _, Except.ok _ => isFalse (fun hc => Except.noConfusion hc)
  | Except.ok _, Except.error _ => isFalse (fun hc => Except.noConfusion hc)
  | Except.ok u, Except.ok v =>
    if h : u = v then isTrue (congrArg Except.ok h)
    else isFalse (fun hc => h (Except.ok.inj hc))

/-- One entry of the service's in-loop `order_items` list of dicts
(order_service.py 65-71): the product object, quantity, and price snapshot. -/
structure ValidatedItem where
  product : Product
  quantity : Int
  price_at_purchase : ℚ
deriving DecidableEq

/-- Lookup in the `products` dict built on order_service.py 38-39.  The dict
is keyed by primary key, so with unique ids the first list match is the
entry; ids requested but absent from the table are absent from the dict. -/
def findProduct (session : List Product) (pid : Nat) : Option Product :=
  session.find? (fun p => p.id == pid)

/-- The validation loop of create_order (order_service.py 45-71): in
submission order, fail on a missing product id, then on
`product.inventory < quantity`; otherwise record the product, the quantity
and the price snapshot for the later persistence loop. -/
def validateItems (session : List Product) : List OrderReqItem → Except OrderError (List ValidatedItem)
  | [] => Except.ok []
  | item :: rest =>
    match findProduct session item.product_id with
    | none => Except.error (OrderError.productNotFound item.product_id)
    | some product =>
      if product.inventory < item.quantity then
        Except.error (OrderError.insufficientInventory item.product_id product.inventory item.quantity)
      else
        match validateItems session rest with
        | Except.error e => Except.error e
        | Except.ok tail =>
          Except.ok ({ product := product, quantity := item.quantity,
                       price_at_purchase := product.price } :: tail)

/-- Python truthiness-based `a or b` on Optional[str]: None and "" are falsy. -/
def truthy : Option String → Bool
  | none => false
  | some s => s ≠ ""

/-- Python `a or b` for Optional[str] operands. -/
def pyOr (a b : Option String) : Option String :=
  if truthy a then a else b

/-- Inventory write-back of the persistence loop (order_service.py 100):
`item_data["product"].inventory -= item_data["quantity"]` mutates the
session's product object, i.e. the table row with that primary key. -/
def decrementInventory (session : List Product) (pid : Nat) (qty : Int) : List Product :=
  session.map (fun p => if p.id == pid then { p with inventory := p.inventory - qty } else p)

/-- What create_order returns plus the session-visible product state after
the call: the order row, the order_items rows, and the product table with
the inventory decrements of order_service.py 89-100 applied. -/
structure CreateOrderResult where
  order : Order
  order_items : List OrderItem
  state : List Product
deriving DecidableEq

/-- create_order (order_service.py 13-105).  Fetch+validate (lines 37-71),
construct the Order (74-83), build one OrderItem per validated line and
decrement each line's product inventory (89-100).  A `ValueError` raised in
validation leaves the session unflushed, so the error branch carries no
state. -/
def create_order (session : List Product) (user : User) (items : List OrderReqItem)
    (shipping_address : ShippingAddress) : Except OrderError CreateOrderResult :=
  match validateItems session items with
  | Except.error e => Except.error e
  | Except.ok validated =>
    let total_amount : ℚ :=
      validated.foldl (fun acc v => acc + v.product.price * (v.quantity : ℚ)) 0
    let order : Order :=
      { user_id := user.id
        status := "PENDING"
        total_amount := total_amount
        shipping_street := shipping_address.shipping_street
        shipping_city := shipping_address.shipping_city
        shipping_state := shipping_address.shipping_state
        shipping_postal_code := shipping_address.shipping_postal_code
        shipping_country := pyOr shipping_address.shipping_country (some "USA") }
    let created_order_items : List OrderItem :=
      validated.map (fun v =>
        { product_id := v.product.id, quantity := v.quantity,
          price_at_purchase := v.price_at_purchase })
    let newState : List Product :=
      validated.foldl (fun st v => decrementInventory st v.product.id v.quantity) session
    Except.ok { order := order, order_items := created_order_items, state := newState }

/-- The body of the POST /orders request (serializers.py, OrderRequest). -/
structure OrderRequest where
  items : List OrderReqItem
  shipping_street : Option String
  shipping_city : Option String
  shipping_state : Option String
  shipping_postal_code : Option String
  shipping_country : Option String
deriving DecidableEq

/-- The shipping_address dict assembled by the controller
(controllers.py 163-169): request value `or` profile value per field, and
for the country a final `or "USA"`. -/
def buildShippingAddress (order_data : OrderRequest) (user : User) : ShippingAddress :=
  { shipping_street := pyOr order_data.shipping_street user.street_address
    shipping_city := pyOr order_data.shipping_city user.city
    shipping_state := pyOr order_data.shipping_state user.state
    shipping_postal_code := pyOr order_data.shipping_postal_code user.postal_code
    shipping_country := pyOr (pyOr order_data.shipping_country user.country) (some "USA") }

/-- create_user_order (controllers.py 134-205) restricted to its effect on
the order path: build the items list and the shipping dict, call
create_order, commit on success, roll the session back on ValueError.  The
returned product-table state is the committed state on success and the
untouched input state after a rollback. -/
def create_user_order (db : List Product) (user : User) (order_data : OrderRequest) :
    List Product × Except OrderError CreateOrderResult :=
  match create_order db user order_data.items (buildShippingAddress order_data user) with
  | Except.error e => (db, Except.error e)
  | Except.ok r => (r.state, Except.ok r)

/-- calculate_pagination (pagination.py 6-23). -/
def calculate_pagination (page page_size : Int) : Int × Int :=
  let page := if page < 1 then 1 else page
  let page_size := if page_size < 1 then 10 else page_size
  ((page - 1) * page_size, page_size)

/-- SQL LIKE/ILIKE pattern matching against a character list, case-folded on
both sides as ILIKE does: `%` matches any (possibly empty) run of
characters (the rest of the pattern must match some suffix of the string),
`_` matches exactly one character, anything else matches itself up to case. -/
def likeMatch : List Char → List Char → Bool
  | [], s => s.isEmpty
  | p :: ps, s =>
    if p = '%' then
      s.tails.any (fun t => likeMatch ps t)
    else
      match s with
      | [] => false
      | c :: s' =>
        if p = '_' then likeMatch ps s'
        else (p.toLower == c.toLower) && likeMatch ps s'

/-- The pattern the service hands to ilike (product_service.py 28):
the characters of the Python f-string built from percent, the search term,
and percent. -/
def ilikePattern (term : String) : List Char :=
  '%' :: (term.data ++ ['%'])

/-- The search filter of product_service.py 28: Product.title ILIKE the
percent-wrapped search term. -/
def titleMatchesSearch (term : String) (p : Product) : Bool :=
  likeMatch (ilikePattern term) p.title.data

/-- The category filter of product_service.py 37: inner-join `categories` on
the foreign key and keep rows whose category name equals the filter value.
Category ids are primary keys (unique), so the join keeps a product row at
most once; membership captures that. -/
def categoryMatches (categories : List Category) (name : String) (p : Product) : Bool :=
  categories.any (fun c => c.id == p.category_id && c.name == name)

/-- The filter_params dict handed to get_product_list (controllers.py 47-52). -/
structure FilterParams where
  search : Option String
  category : Option String
  page : Int
  page_size : Int
deriving DecidableEq

/-- The WHERE clause accumulated by product_service.py 24-38 on both the row
query and the count query.  Python `if search_term:` / `if category_name:`
skip a filter whose value is None or the empty string. -/
def matchesFilters (categories : List Category) (fp : FilterParams) (p : Product) : Bool :=
  (match fp.search with
   | none => true
   | some t => if t = "" then true else titleMatchesSearch t p)
  &&
  (match fp.category with
   | none => true
   | some n => if n = "" then true else categoryMatches categories n p)

/-- get_product_list (product_service.py 13-60): filter, count before
pagination, then OFFSET/LIMIT on the row query.  The table's storage order
is the list order. -/
def get_product_list (products : List Product) (categories : List Category)
    (fp : FilterParams) : List Product × Nat :=
  let filtered := products.filter (matchesFilters categories fp)
  let total_count := filtered.length
  let pag := calculate_pagination fp.page fp.page_size
  ((filtered.drop pag.1.toNat).take pag.2.toNat, total_count)

/-- The validated query parameters of GET /products (serializers.py,
ProductQuery): pydantic enforces page ≥ 1 and 1 ≤ page_size ≤ 100; the
category is the enum's string value or absent. -/
structure ProductQuery where
  search : Option String
  category : Option String
  page : Int
  page_size : Int
deriving DecidableEq

/-- The response shape of GET /products (serializers.py, ProductListResponse). -/
structure ProductListResponse where
  products : List Product
  total : Nat
  page : Int
  page_size : Int
  total_pages : Int
deriving DecidableEq

/-- fetch_products (controllers.py 28-73): pass the filters through to
get_product_list, then `total_pages = ceil(total_count / params.page_size)
if total_count > 0 else 0`.  Python's true division of ints is exact here:
the operands are far below 2^53, so `math.ceil` of the float quotient is the
mathematical ceiling, modelled by `Int.ceil` on ℚ. -/
def fetch_products (db : List Product) (categories : List Category)
    (params : ProductQuery) : ProductListResponse :=
  let fp : FilterParams :=
    { search := params.search, category := params.category,
      page := params.page, page_size := params.page_size }
  let res := get_product_list db categories fp
  let total_pages : Int :=
    if 0 < res.2 then Int.ceil ((res.2 : ℚ) / (params.page_size : ℚ)) else 0
  { products := res.1, total := res.2, page := params.page,
    page_size := params.page_size, total_pages := total_pages }

/-- Case-insensitive starts-with on character lists; the head of the
spec-side substring predicate (spec §4.2: "case-insensitive substring match
on product title"). -/
def startsWithCI : List Char → List Char → Bool
  | [], _ => true
  | _ :: _, [] => false
  | a :: as, b :: bs => (a.toLower == b.toLower) && startsWithCI as bs

/-- Case-insensitive containment of `needle` in a character list (spec-side,
spec §4.2). -/
def containsCI (needle : List Char) : List Char → Bool
  | [] => startsWithCI needle []
  | hay :: t => startsWithCI needle (hay :: t) || containsCI needle t

/-- Spec-side reading of the search filter (spec §4.2): the title contains
the search term as a case-insensitive substring. -/
def ciContainsSubstr (hay needle : String) : Bool :=
  containsCI needle.data hay.data

/-- Spec-side reading of create_order's failure rule (spec §4.3 step 2):
walk the items in submission order and report the first invalid one — a
not-found error if its product id is absent, otherwise an
insufficient-inventory error if the stock is below the requested quantity;
`none` if every item is valid. -/
def specFirstError (session : List Product) : List OrderReqItem → Option OrderError
  | [] => none
  | it :: rest =>
    match findProduct session it.product_id with
    | none => some (OrderError.productNotFound it.product_id)
    | some p =>
      if p.inventory < it.quantity then
        some (OrderError.insufficientInventory it.product_id p.inventory it.quantity)
      else specFirstError session rest

/-- Total quantity a request asks for a given product id, over all its
lines (spec-side bookkeeping for the decrement property). -/
def itemsQty (pid : Nat) (items : List OrderReqItem) : Int :=
  ((items.filter (fun it => it.product_id == pid)).map (fun it => it.quantity)).sum

/-- Total quantity the validated lines carry for a given product id. -/
def validatedQty (pid : Nat) (l : List ValidatedItem) : Int :=
  ((l.filter (fun v => v.product.id == pid)).map (fun v => v.quantity)).sum

/-- True when a search term contains neither LIKE wildcard, so its
percent-wrapped pattern means plain substring containment. -/
def noWildcard (term : String) : Bool :=
  term.data.all (fun c => !(c == '%') && !(c == '_'))

/-! ### Helper lemmas about the validation loop -/

theorem validateItems_error_iff (s : List Product) (items : List OrderReqItem) (e : OrderError) :
    validateItems s items = Except.error e ↔ specFirstError s items = some e := by
  induction items with
  | nil => simp [validateItems, specFirstError]
  | cons it rest ih =>
    simp only [validateItems, specFirstError]
    cases hf : findProduct s it.product_id with
    | none => simp
    | some p =>
      by_cases hinv : p.inventory < it.quantity
      · simp [hinv]
      · simp only [hinv, if_false]
        cases hv : validateItems s rest with
        | error e' => simp [← ih, hv]
        | ok tail => simp [← ih, hv]

theorem validateItems_ok_forall₂ (s : List Product) (items : List OrderReqItem)
    (v : List ValidatedItem) (h : validateItems s items = Except.ok v) :
    List.Forall₂ (fun (it : OrderReqItem) (vd : ValidatedItem) =>
      findProduct s it.product_id = some vd.product ∧ vd.quantity = it.quantity ∧
      vd.price_at_purchase = vd.product.price) items v := by
  induction items generalizing v with
  | nil =>
    simp only [validateItems, Except.ok.injEq] at h
    subst h
    exact List.Forall₂.nil
  | cons it rest ih =>
    simp only [validateItems] at h
    cases hf : findProduct s it.product_id with
    | none => rw [hf] at h; cases h
    | some p =>
      rw [hf] at h
      by_cases hinv : p.inventory < it.quantity
      · simp [hinv] at h
      · simp only [hinv, if_false] at h
        cases hv : validateItems s rest with
        | error e => rw [hv] at h; cases h
        | ok tail =>
          rw [hv] at h
          simp only [Except.ok.injEq] at h
          subst h
          exact List.Forall₂.cons ⟨hf, rfl, rfl⟩ (ih tail hv)

theorem specFirstError_eq_none_iff (s : List Product) (items : List OrderReqItem) :
    specFirstError s items = none ↔
      ∀ it ∈ items, ∃ p, findProduct s it.product_id = some p ∧ ¬ p.inventory < it.quantity := by
  induction items with
  | nil => simp [specFirstError]
  | cons it rest ih =>
    simp only [specFirstError, List.mem_cons]
    cases hf : findProduct s it.product_id with
    | none => simp [hf]
    | some p =>
      by_cases hinv : p.inventory < it.quantity
      · simp only [hinv, if_true]
        constructor
        · intro h; cases h
        · intro h
          rcases h it (Or.inl rfl) with ⟨q, hq, hqi⟩
          rw [hf] at hq
          cases hq
          exact absurd hinv hqi
      · simp only [hinv, if_false, ih]
        constructor
        · intro h x hx
          rcases hx with hx | hx
          · subst hx; exact ⟨p, hf, hinv⟩
          · exact h x hx
        · intro h x hx
          exact h x (Or.inr hx)

theorem findProduct_id {s : List Product} {pid : Nat} {p : Product}
    (h : findProduct s pid = some p) : p.id = pid := by
  have := List.find?_some h
  simpa using this

/-! ### Helper lemmas about the persistence loop -/

theorem foldl_add_price (l : List ValidatedItem) (a : ℚ) :
    l.foldl (fun acc v => acc + v.product.price * (v.quantity : ℚ)) a
      = a + (l.map (fun v => v.product.price * (v.quantity : ℚ))).sum := by
  induction l generalizing a with
  | nil => simp
  | cons h t ih => simp [ih, add_assoc]

theorem foldl_decrementInventory (l : List ValidatedItem) (s : List Product) :
    l.foldl (fun st v => decrementInventory st v.product.id v.quantity) s
      = s.map (fun p => { p with inventory := p.inventory - validatedQty p.id l }) := by
  induction l generalizing s with
  | nil =>
    simp only [List.foldl_nil, validatedQty, List.filter_nil, List.map_nil, List.sum_nil,
      sub_zero]
    conv_lhs => rw [← List.map_id s]
    rfl
  | cons h t ih =>
    rw [List.foldl_cons, ih]
    simp only [decrementInventory, List.map_map]
    apply List.map_congr_left
    intro p _
    simp only [Function.comp_apply]
    by_cases hpid : p.id = h.product.id
    · rw [← hpid]
      simp only [validatedQty, List.filter_cons, beq_self_eq_true, if_true,
        List.map_cons, List.sum_cons]
      simp [sub_sub]
      rw [if_pos hpid.symm]
      simp
    · have hpid' : h.product.id ≠ p.id := fun hh => hpid hh.symm
      simp only [validatedQty, List.filter_cons, beq_iff_eq, hpid, hpid', if_false]

theorem findProduct_map_preserve (s : List Product) (pid : Nat)
    (f : Product → Product) (hf : ∀ p, (f p).id = p.id) :
    findProduct (s.map f) pid = (findProduct s pid).map f := by
  induction s with
  | nil => rfl
  | cons p t ih =>
    simp only [findProduct, List.map_cons, List.find?_cons, hf p] at ih ⊢
    cases hp : (p.id == pid) with
    | true => rfl
    | false => exact ih

theorem validatedQty_eq_itemsQty {s : List Product} (pid : Nat)
    {items : List OrderReqItem} {v : List ValidatedItem}
    (h : List.Forall₂ (fun (it : OrderReqItem) (vd : ValidatedItem) =>
      findProduct s it.product_id = some vd.product ∧ vd.quantity = it.quantity ∧
      vd.price_at_purchase = vd.product.price) items v) :
    validatedQty pid v = itemsQty pid items := by
  induction h with
  | nil => rfl
  | @cons it vd items' v' hr _ ih =>
    have hid : vd.product.id = it.product_id := findProduct_id hr.1
    by_cases hp : it.product_id = pid
    · simp only [validatedQty, itemsQty, List.filter_cons, hid, hp, beq_self_eq_true, if_true,
        List.map_cons, List.sum_cons]
      rw [hr.2.1]
      exact congrArg (fun x => it.quantity + x) ih
    · have h1 : (vd.product.id == pid) = false := by simp [hid, hp]
      have h2 : (it.product_id == pid) = false := by simp [hp]
      simp only [validatedQty, itemsQty, List.filter_cons, h1, h2, if_false] at ih ⊢
      exact ih

/-! ### ILIKE patterns versus plain substring containment -/

theorem likeMatch_lit_nil (p : Char) (ps : List Char) (h : p ≠ '%') :
    likeMatch (p :: ps) [] = false := by
  simp [likeMatch, h]

theorem likeMatch_lit_cons (p : Char) (ps : List Char) (c : Char) (s' : List Char)
    (h1 : p ≠ '%') (h2 : p ≠ '_') :
    likeMatch (p :: ps) (c :: s') = ((p.toLower == c.toLower) && likeMatch ps s') := by
  simp [likeMatch, h1, h2]

theorem likeMatch_percent_iff (ps : List Char) (s : List Char) :
    likeMatch ('%' :: ps) s = true ↔ ∃ t, t <:+ s ∧ likeMatch ps t = true := by
  rw [show likeMatch ('%' :: ps) s = s.tails.any (fun t => likeMatch ps t) from by
    simp [likeMatch]]
  rw [List.any_eq_true]
  constructor
  · rintro ⟨t, ht, hm⟩
    exact ⟨t, (List.mem_tails t s).mp ht, hm⟩
  · rintro ⟨t, ht, hm⟩
    exact ⟨t, (List.mem_tails t s).mpr ht, hm⟩

theorem likeMatch_percent_any (s : List Char) : likeMatch ['%'] s = true := by
  rw [likeMatch_percent_iff]
  exact ⟨[], List.nil_suffix, by simp [likeMatch]⟩

theorem likeMatch_lit_percent (lit : List Char) (h : ∀ c ∈ lit, c ≠ '%' ∧ c ≠ '_')
    (s : List Char) : likeMatch (lit ++ ['%']) s = startsWithCI lit s := by
  induction lit generalizing s with
  | nil => simp [startsWithCI, likeMatch_percent_any]
  | cons p ps ih =>
    have hp := h p (List.mem_cons_self p ps)
    have hrest : ∀ c ∈ ps, c ≠ '%' ∧ c ≠ '_' := fun c hc => h c (List.mem_cons_of_mem p hc)
    cases s with
    | nil =>
      rw [List.cons_append, likeMatch_lit_nil p (ps ++ ['%']) hp.1]
      rfl
    | cons c s' =>
      rw [List.cons_append, likeMatch_lit_cons p (ps ++ ['%']) c s' hp.1 hp.2, ih hrest]
      rfl

theorem containsCI_iff (needle s : List Char) :
    containsCI needle s = true ↔ ∃ t, t <:+ s ∧ startsWithCI needle t = true := by
  induction s with
  | nil =>
    simp only [containsCI]
    constructor
    · intro h; exact ⟨[], List.suffix_nil.mpr rfl, h⟩
    · rintro ⟨t, ht, hm⟩
      rw [List.suffix_nil] at ht
      subst ht
      exact hm
  | cons c s' ih =>
    simp only [containsCI, Bool.or_eq_true, ih]
    constructor
    · rintro (h | ⟨t, ht, hm⟩)
      · exact ⟨c :: s', List.suffix_rfl, h⟩
      · exact ⟨t, List.suffix_cons_iff.mpr (Or.inr ht), hm⟩
    · rintro ⟨t, ht, hm⟩
      rcases List.suffix_cons_iff.mp ht with ht | ht
      · subst ht; exact Or.inl hm
      · exact Or.inr ⟨t, ht, hm⟩

theorem noWildcard_forall {term : String} (h : noWildcard term = true) :
    ∀ c ∈ term.data, c ≠ '%' ∧ c ≠ '_' := by
  intro c hc
  have := List.all_eq_true.mp h c hc
  simp only [Bool.and_eq_true, Bool.not_eq_true', beq_eq_false_iff_ne] at this
  exact this

theorem likeMatch_pattern_eq_containsCI {term : String} (h : noWildcard term = true)
    (s : String) : likeMatch (ilikePattern term) s.data = ciContainsSubstr s term := by
  apply Bool.coe_iff_coe.mp
  rw [ilikePattern, ciContainsSubstr]
  rw [likeMatch_percent_iff, containsCI_iff]
  constructor
  · rintro ⟨t, ht, hm⟩
    rw [likeMatch_lit_percent term.data (noWildcard_forall h) t] at hm
    exact ⟨t, ht, hm⟩
  · rintro ⟨t, ht, hm⟩
    exact ⟨t, ht, by rw [likeMatch_lit_percent term.data (noWildcard_forall h) t]; exact hm⟩

/-! ### Remaining helper lemmas -/

theorem validateItems_ok_specFirstError_none (s : List Product) (items : List OrderReqItem)
    (v : List ValidatedItem) (h : validateItems s items = Except.ok v) :
    specFirstError s items = none := by
  cases hs : specFirstError s items with
  | none => rfl
  | some e =>
    have := (validateItems_error_iff s items e).mpr hs
    rw [h] at this
    cases this

theorem validateItems_ok_price_snapshot (s : List Product) (items : List OrderReqItem)
    (v : List ValidatedItem) (h : validateItems s items = Except.ok v) :
    ∀ vd ∈ v, vd.price_at_purchase = vd.product.price := by
  have hf := validateItems_ok_forall₂ s items v h
  clear h
  induction hf with
  | nil => intro vd hvd; cases hvd
  | cons hr _ ih =>
    intro vd hvd
    rcases List.mem_cons.mp hvd with hvd | hvd
    · subst hvd; exact hr.2.2
    · exact ih vd hvd

theorem pyOr_usa_collapse (a : Option String) :
    pyOr (pyOr a (some "USA")) (some "USA") = pyOr a (some "USA") := by
  by_cases h : truthy a = true
  · simp [pyOr, h]
  · have hu : pyOr a (some "USA") = some "USA" := by simp [pyOr, h]
    rw [hu]
    simp [pyOr, truthy]

theorem pyOr_usa_nonempty (a : Option String) :
    ∃ c, pyOr a (some "USA") = some c ∧ c ≠ "" := by
  cases a with
  | none => exact ⟨"USA", rfl, by decide⟩
  | some s =>
    by_cases hs : s = ""
    · subst hs
      exact ⟨"USA", by simp [pyOr, truthy], by decide⟩
    · exact ⟨s, by simp [pyOr, truthy, hs], hs⟩

/-! ### Claim theorems -/

/-- Claim C6: calculate_pagination returns offset = (page-1)*page_size and
limit = page_size whenever page ≥ 1 and page_size ≥ 1; a page below 1 is
treated as page 1 and a page_size below 1 as the default 10.  The function
is a total pure function, so it has no failure modes. -/
theorem calculate_pagination_spec (page page_size : Int) :
    (1 ≤ page → 1 ≤ page_size →
      calculate_pagination page page_size = ((page - 1) * page_size, page_size))
    ∧ (page < 1 → calculate_pagination page page_size = calculate_pagination 1 page_size)
    ∧ (page_size < 1 → calculate_pagination page page_size = calculate_pagination page 10) := by
  refine ⟨?_, ?_, ?_⟩
  · intro h1 h2
    simp [calculate_pagination, show ¬ page < 1 by omega, show ¬ page_size < 1 by omega]
  · intro h
    simp [calculate_pagination, h]
  · intro h
    simp [calculate_pagination, h]

/-- Witness for C6 at page 2, page_size 5. -/
theorem calculate_pagination_spec_witness :
    calculate_pagination 2 5 = ((2 - 1) * 5, 5) :=
  (calculate_pagination_spec 2 5).1 (by decide) (by decide)

/-- Claim C1 is violated by the code: per-line validation checks each line
against the still-undecremented inventory, while the persistence loop
decrements cumulatively.  On a catalog whose single product has inventory
1 ≥ 0, a request with two lines for that product of quantity 1 each
succeeds and leaves the product's session inventory at -1, violating the
`inventory >= 0` invariant (which the model itself declares as a check
constraint). -/
theorem create_order_duplicate_lines_negative_inventory :
    (∀ p ∈ ([⟨1, "Widget", 1, 1, 1⟩] : List Product), 0 ≤ p.inventory)
    ∧ (create_order [⟨1, "Widget", 1, 1, 1⟩] ⟨1, none, none, none, none, none⟩
          [⟨1, 1⟩, ⟨1, 1⟩] ⟨none, none, none, none, none⟩).toOption.map
        (fun r => r.state) = some [⟨1, "Widget", 1, -1, 1⟩]
    ∧ (create_order [⟨1, "Widget", 1, 1, 1⟩] ⟨1, none, none, none, none, none⟩
          [⟨1, 1⟩, ⟨1, 1⟩] ⟨none, none, none, none, none⟩).toOption.map
        (fun r => r.state.any (fun p => p.inventory < 0)) = some true := by
  decide

/-- Claim C8: for every product-list request the returned total_pages is
ceil(total / page_size) when the count of matching rows is positive and 0
when it is 0, where total is the pre-pagination count of rows matching the
search/category filters. -/
theorem fetch_products_total_pages_spec (db : List Product) (cats : List Category)
    (params : ProductQuery) :
    (fetch_products db cats params).total
      = (db.filter (matchesFilters cats
          { search := params.search, category := params.category,
            page := params.page, page_size := params.page_size })).length
    ∧ (fetch_products db cats params).total_pages
      = (if 0 < (db.filter (matchesFilters cats
            { search := params.search, category := params.category,
              page := params.page, page_size := params.page_size })).length then
          Int.ceil (((db.filter (matchesFilters cats
            { search := params.search, category := params.category,
              page := params.page, page_size := params.page_size })).length : ℚ)
              / (params.page_size : ℚ))
        else 0) := by
  unfold fetch_products get_product_list
  exact ⟨rfl, rfl⟩

/-- Claim C2: every successful create_order call produces an order whose
total_amount equals the sum over its order items of
quantity * price_at_purchase, in exact rational (decimal) arithmetic. -/
theorem create_order_total_amount_eq_sum (s : List Product) (u : User)
    (items : List OrderReqItem) (addr : ShippingAddress) (r : CreateOrderResult)
    (h : create_order s u items addr = Except.ok r) :
    (r.order_items.map (fun oi => (oi.quantity : ℚ) * oi.price_at_purchase)).sum
      = r.order.total_amount := by
  unfold create_order at h
  cases hv : validateItems s items with
  | error e => rw [hv] at h; cases h
  | ok v =>
    rw [hv] at h
    simp only [Except.ok.injEq] at h
    subst h
    dsimp only
    rw [foldl_add_price, zero_add, List.map_map]
    apply congrArg List.sum
    apply List.map_congr_left
    intro vd hvd
    rw [Function.comp_apply]
    dsimp only
    rw [validateItems_ok_price_snapshot s items v hv vd hvd]
    ring

/-- Witness for C2: one product, one line of quantity 2 at price 2. -/
theorem create_order_total_amount_eq_sum_witness :
    (([⟨1, 2, 2⟩] : List OrderItem).map
        (fun oi => (oi.quantity : ℚ) * oi.price_at_purchase)).sum = (4 : ℚ) :=
  create_order_total_amount_eq_sum [⟨1, "A", 2, 5, 1⟩] ⟨1, none, none, none, none, none⟩
    [⟨1, 2⟩] ⟨none, none, none, none, none⟩
    ⟨⟨1, "PENDING", 4, none, none, none, none, some "USA"⟩, [⟨1, 2, 2⟩], [⟨1, "A", 2, 3, 1⟩]⟩
    (by norm_num [create_order, validateItems, findProduct, pyOr, truthy, decrementInventory])

/-- Claim C3: if some item references an absent product id or asks for more
than the product's current inventory, create_order raises, and the
controller's rollback leaves the product table exactly as it was — no
order, no order items, no partial decrement. -/
theorem create_order_invalid_item_fails_atomically (db : List Product) (u : User)
    (od : OrderRequest)
    (h : ∃ it ∈ od.items, findProduct db it.product_id = none ∨
         ∃ p, findProduct db it.product_id = some p ∧ p.inventory < it.quantity) :
    (∃ e, create_order db u od.items (buildShippingAddress od u) = Except.error e)
    ∧ (create_user_order db u od).1 = db
    ∧ (∀ r, (create_user_order db u od).2 ≠ Except.ok r) := by
  have hne : specFirstError db od.items ≠ none := by
    intro hnone
    rw [specFirstError_eq_none_iff] at hnone
    rcases h with ⟨it, hmem, hbad⟩
    rcases hnone it hmem with ⟨p, hp, hpi⟩
    rcases hbad with hbad | ⟨q, hq, hqi⟩
    · rw [hbad] at hp; cases hp
    · rw [hq] at hp
      cases hp
      exact hpi hqi
  rcases Option.ne_none_iff_exists'.mp hne with ⟨e, he⟩
  have herr : validateItems db od.items = Except.error e :=
    (validateItems_error_iff db od.items e).mpr he
  have hco : create_order db u od.items (buildShippingAddress od u) = Except.error e := by
    unfold create_order
    rw [herr]
  refine ⟨⟨e, hco⟩, ?_, ?_⟩
  · unfold create_user_order
    rw [hco]
  · intro r
    unfold create_user_order
    rw [hco]
    intro hcontra
    cases hcontra

/-- Witness for C3: request for an id that is not in the catalog. -/
theorem create_order_invalid_item_fails_atomically_witness :
    (∃ e, create_order [⟨1, "A", 2, 5, 1⟩] ⟨1, none, none, none, none, none⟩
        ([⟨2, 1⟩] : List OrderReqItem)
        (buildShippingAddress ⟨[⟨2, 1⟩], none, none, none, none, none⟩
          ⟨1, none, none, none, none, none⟩) = Except.error e)
    ∧ (create_user_order [⟨1, "A", 2, 5, 1⟩] ⟨1, none, none, none, none, none⟩
        ⟨[⟨2, 1⟩], none, none, none, none, none⟩).1 = [⟨1, "A", 2, 5, 1⟩]
    ∧ (∀ r, (create_user_order [⟨1, "A", 2, 5, 1⟩] ⟨1, none, none, none, none, none⟩
        ⟨[⟨2, 1⟩], none, none, none, none, none⟩).2 ≠ Except.ok r) :=
  create_order_invalid_item_fails_atomically [⟨1, "A", 2, 5, 1⟩]
    ⟨1, none, none, none, none, none⟩ ⟨[⟨2, 1⟩], none, none, none, none, none⟩
    ⟨⟨2, 1⟩, by decide, Or.inl (by decide)⟩

/-- Claim C4: create_order fails with exactly the error of the first
invalid item in submission order — not-found when the id is absent,
otherwise insufficient-inventory when stock is below the requested
quantity — and it fails if and only if some item is invalid in one of
these two ways (equivalently: it succeeds iff every item is valid). -/
theorem create_order_error_iff_first_invalid (s : List Product) (u : User)
    (items : List OrderReqItem) (addr : ShippingAddress) :
    (∀ e, create_order s u items addr = Except.error e ↔ specFirstError s items = some e)
    ∧ ((∃ r, create_order s u items addr = Except.ok r) ↔
        ∀ it ∈ items, ∃ p, findProduct s it.product_id = some p ∧
          ¬ p.inventory < it.quantity) := by
  constructor
  · intro e
    unfold create_order
    cases hv : validateItems s items with
    | error e' =>
      rw [(validateItems_error_iff s items e').mp hv]
      simp
    | ok v =>
      rw [validateItems_ok_specFirstError_none s items v hv]
      simp
  · rw [← specFirstError_eq_none_iff]
    unfold create_order
    cases hv : validateItems s items with
    | error e' =>
      rw [(validateItems_error_iff s items e').mp hv]
      simp
    | ok v =>
      rw [validateItems_ok_specFirstError_none s items v hv]
      simp

/-- Claim C5: a successful create_order creates exactly one OrderItem per
requested line, in submission order, carrying the line's product id and
quantity and a price_at_purchase equal to the product's price at validation
time (a snapshot of the fetched row, not a live reference), and the session
inventory of every product equals its old inventory minus the total
quantity requested for it across the lines (each line decrementing by
exactly its own quantity). -/
theorem create_order_lines_and_inventory (s : List Product) (u : User)
    (items : List OrderReqItem) (addr : ShippingAddress) (r : CreateOrderResult)
    (h : create_order s u items addr = Except.ok r) :
    List.Forall₂ (fun (it : OrderReqItem) (oi : OrderItem) =>
      oi.product_id = it.product_id ∧ oi.quantity = it.quantity ∧
      ∃ p, findProduct s it.product_id = some p ∧ oi.price_at_purchase = p.price)
      items r.order_items
    ∧ ∀ pid, findProduct r.state pid = (findProduct s pid).map
        (fun p => { p with inventory := p.inventory - itemsQty pid items }) := by
  unfold create_order at h
  cases hv : validateItems s items with
  | error e => rw [hv] at h; cases h
  | ok v =>
    rw [hv] at h
    simp only [Except.ok.injEq] at h
    subst h
    have hf := validateItems_ok_forall₂ s items v hv
    constructor
    · dsimp only
      rw [List.forall₂_map_right_iff]
      refine hf.imp ?_
      intro it vd hr
      exact ⟨findProduct_id hr.1, hr.2.1, vd.product, hr.1, hr.2.2⟩
    · intro pid
      dsimp only
      rw [foldl_decrementInventory]
      rw [findProduct_map_preserve s pid
        (fun p => { p with inventory := p.inventory - validatedQty p.id v }) (fun p => rfl)]
      cases hp : findProduct s pid with
      | none => rfl
      | some p =>
        have hpi : p.id = pid := findProduct_id hp
        simp only [Option.map_some']
        rw [hpi, validatedQty_eq_itemsQty pid hf]

/-- Witness for C5: one product with inventory 5, one line of quantity 2. -/
theorem create_order_lines_and_inventory_witness :
    List.Forall₂ (fun (it : OrderReqItem) (oi : OrderItem) =>
      oi.product_id = it.product_id ∧ oi.quantity = it.quantity ∧
      ∃ p, findProduct [⟨1, "A", 2, 5, 1⟩] it.product_id = some p ∧
        oi.price_at_purchase = p.price)
      [⟨1, 2⟩] [⟨1, 2, 2⟩]
    ∧ findProduct [⟨1, "A", 2, 3, 1⟩] 1
      = (findProduct [⟨1, "A", 2, 5, 1⟩] 1).map
        (fun p => { p with inventory := p.inventory - itemsQty 1 [⟨1, 2⟩] }) :=
  have h := create_order_lines_and_inventory [⟨1, "A", 2, 5, 1⟩]
    ⟨1, none, none, none, none, none⟩ [⟨1, 2⟩] ⟨none, none, none, none, none⟩
    ⟨⟨1, "PENDING", 4, none, none, none, none, some "USA"⟩, [⟨1, 2, 2⟩], [⟨1, "A", 2, 3, 1⟩]⟩
    (by norm_num [create_order, validateItems, findProduct, pyOr, truthy, decrementInventory])
  ⟨h.1, h.2 1⟩

/-- Claim C7: every order created through the controller has status
"PENDING" and shipping fields equal to the request value or, when that is
absent (falsy), the user profile value, the country falling back to "USA"
when neither source provides one. -/
theorem create_user_order_shipping_and_status (db : List Product) (u : User)
    (od : OrderRequest) (r : CreateOrderResult)
    (h : (create_user_order db u od).2 = Except.ok r) :
    r.order.status = "PENDING"
    ∧ r.order.shipping_street = pyOr od.shipping_street u.street_address
    ∧ r.order.shipping_city = pyOr od.shipping_city u.city
    ∧ r.order.shipping_state = pyOr od.shipping_state u.state
    ∧ r.order.shipping_postal_code = pyOr od.shipping_postal_code u.postal_code
    ∧ r.order.shipping_country = pyOr (pyOr od.shipping_country u.country) (some "USA") := by
  unfold create_user_order at h
  cases hc : create_order db u od.items (buildShippingAddress od u) with
  | error e => rw [hc] at h; cases h
  | ok r' =>
    rw [hc] at h
    simp only [Except.ok.injEq] at h
    subst h
    unfold create_order at hc
    cases hv : validateItems db od.items with
    | error e => rw [hv] at hc; cases hc
    | ok v =>
      rw [hv] at hc
      simp only [Except.ok.injEq] at hc
      subst hc
      exact ⟨rfl, rfl, rfl, rfl, rfl,
        pyOr_usa_collapse (pyOr od.shipping_country u.country)⟩

/-- Witness for C7: request and profile supply no shipping data at all. -/
theorem create_user_order_shipping_and_status_witness :
    "PENDING" = "PENDING"
    ∧ (none : Option String) = pyOr none none
    ∧ (none : Option String) = pyOr none none
    ∧ (none : Option String) = pyOr none none
    ∧ (none : Option String) = pyOr none none
    ∧ some "USA" = pyOr (pyOr none none) (some "USA") :=
  create_user_order_shipping_and_status [⟨1, "A", 2, 5, 1⟩]
    ⟨1, none, none, none, none, none⟩ ⟨[⟨1, 2⟩], none, none, none, none, none⟩
    ⟨⟨1, "PENDING", 4, none, none, none, none, some "USA"⟩, [⟨1, 2, 2⟩], [⟨1, "A", 2, 3, 1⟩]⟩
    (by norm_num [create_user_order, create_order, validateItems, findProduct,
      buildShippingAddress, pyOr, truthy, decrementInventory])

/-- Claim C10: every order created by create_order carries a non-null,
non-empty shipping_country — the service substitutes "USA" whenever the
assembled dictionary's country entry is null or the empty string — while
the other four shipping fields are stored exactly as passed and so may
remain null. -/
theorem create_order_country_never_empty (s : List Product) (u : User)
    (items : List OrderReqItem) (addr : ShippingAddress) (r : CreateOrderResult)
    (h : create_order s u items addr = Except.ok r) :
    (∃ c, r.order.shipping_country = some c ∧ c ≠ "")
    ∧ ((addr.shipping_country = none ∨ addr.shipping_country = some "") →
        r.order.shipping_country = some "USA")
    ∧ r.order.shipping_street = addr.shipping_street
    ∧ r.order.shipping_city = addr.shipping_city
    ∧ r.order.shipping_state = addr.shipping_state
    ∧ r.order.shipping_postal_code = addr.shipping_postal_code := by
  unfold create_order at h
  cases hv : validateItems s items with
  | error e => rw [hv] at h; cases h
  | ok v =>
    rw [hv] at h
    simp only [Except.ok.injEq] at h
    subst h
    refine ⟨pyOr_usa_nonempty addr.shipping_country, ?_, rfl, rfl, rfl, rfl⟩
    rintro (hc | hc) <;> (dsimp only; rw [hc]; simp [pyOr, truthy])

/-- Witness for C10: the dictionary's country entry is the empty string. -/
theorem create_order_country_never_empty_witness :
    (∃ c, some "USA" = some c ∧ c ≠ "")
    ∧ ((some "" = (none : Option String) ∨ (some "" : Option String) = some "") →
        some "USA" = some "USA")
    ∧ (none : Option String) = none
    ∧ (none : Option String) = none
    ∧ (none : Option String) = none
    ∧ (none : Option String) = none :=
  create_order_country_never_empty [⟨1, "A", 2, 5, 1⟩]
    ⟨1, none, none, none, none, none⟩ [⟨1, 2⟩] ⟨none, none, none, none, some ""⟩
    ⟨⟨1, "PENDING", 4, none, none, none, none, some "USA"⟩, [⟨1, 2, 2⟩], [⟨1, "A", 2, 3, 1⟩]⟩
    (by norm_num [create_order, validateItems, findProduct, pyOr, truthy, decrementInventory])

theorem containsCI_nil (hay : List Char) : containsCI [] hay = true := by
  cases hay <;> simp [containsCI, startsWithCI]

/-- Claim C9 as stated is false: the search filter is SQL ILIKE with the
term interpolated between two percent signs, so a term containing the
wildcard `_` (or `%`) is not a plain substring test.  With the catalog
holding one product titled "cat" and the search term "_", the product is
returned although "cat" does not contain "_" as a (case-insensitive)
substring. -/
theorem get_product_list_search_wildcard_counterexample :
    (get_product_list [⟨1, "cat", 1, 1, 1⟩] []
        { search := some "_", category := none, page := 1, page_size := 10 }).1
      = [⟨1, "cat", 1, 1, 1⟩]
    ∧ ciContainsSubstr "cat" "_" = false := by
  decide

/-- Claim C9, amended: when a search term is present the results are
restricted to products whose title matches the ILIKE pattern
percent-term-percent — which coincides with case-insensitive substring
containment whenever the term contains no `%` or `_` wildcard — when a
non-empty category name is present the results are restricted to products
whose category name equals it exactly, and the returned count is the number
of rows matching the filters before offset/limit pagination. -/
theorem get_product_list_filters_and_count (products : List Product)
    (cats : List Category) (fp : FilterParams) :
    (∀ p ∈ (get_product_list products cats fp).1,
        p ∈ products ∧ matchesFilters cats fp p = true)
    ∧ (get_product_list products cats fp).2
        = (products.filter (matchesFilters cats fp)).length
    ∧ (∀ t, fp.search = some t → noWildcard t = true →
        ∀ p ∈ (get_product_list products cats fp).1, ciContainsSubstr p.title t = true)
    ∧ (∀ n, fp.category = some n → n ≠ "" →
        ∀ p ∈ (get_product_list products cats fp).1, categoryMatches cats n p = true) := by
  have hmem : ∀ p ∈ (get_product_list products cats fp).1,
      p ∈ products ∧ matchesFilters cats fp p = true := by
    intro p hp
    unfold get_product_list at hp
    have h1 : p ∈ products.filter (matchesFilters cats fp) :=
      List.mem_of_mem_drop (List.mem_of_mem_take hp)
    exact ⟨List.mem_of_mem_filter h1, List.of_mem_filter h1⟩
  refine ⟨hmem, rfl, ?_, ?_⟩
  · intro t ht hw p hp
    have hm := (hmem p hp).2
    rw [matchesFilters, Bool.and_eq_true] at hm
    have h1 := hm.1
    rw [ht] at h1
    dsimp only at h1
    by_cases ht0 : t = ""
    · subst ht0
      exact containsCI_nil _
    · rw [if_neg ht0] at h1
      rw [titleMatchesSearch, likeMatch_pattern_eq_containsCI hw] at h1
      exact h1
  · intro n hn hn0 p hp
    have hm := (hmem p hp).2
    rw [matchesFilters, Bool.and_eq_true] at hm
    have h2 := hm.2
    rw [hn] at h2
    dsimp only at h2
    rw [if_neg hn0] at h2
    exact h2

/-- Witness for C9 (amended): the wildcard-free term "idge" selects the
product titled "WIDGET pro" case-insensitively, and that title does contain
the term as a case-insensitive substring. -/
theorem get_product_list_filters_and_count_witness :
    ciContainsSubstr "WIDGET pro" "idge" = true :=
  (get_product_list_filters_and_count
      [⟨1, "WIDGET pro", 1, 1, 1⟩, ⟨2, "gadget", 1, 1, 1⟩] []
      { search := some "idge", category := none, page := 1, page_size := 10 }).2.2.1
    "idge" rfl (by decide) ⟨1, "WIDGET pro", 1, 1, 1⟩ (by decide)

/-- Witness for C4: a request whose first line references the missing id 2
fails with exactly the not-found error for id 2. -/
theorem create_order_error_iff_first_invalid_witness :
    specFirstError [⟨1, "A", 2, 5, 1⟩] [⟨2, 5⟩] = some (OrderError.productNotFound 2) :=
  ((create_order_error_iff_first_invalid [⟨1, "A", 2, 5, 1⟩]
      ⟨1, none, none, none, none, none⟩ [⟨2, 5⟩] ⟨none, none, none, none, none⟩).1
    (OrderError.productNotFound 2)).mp (by decide)

/-- Witness for C8: the empty catalog yields total 0 and total_pages 0. -/
theorem fetch_products_total_pages_spec_witness :
    (fetch_products [] [] ⟨none, none, 1, 10⟩).total = 0
    ∧ (fetch_products [] [] ⟨none, none, 1, 10⟩).total_pages = 0 :=
  fetch_products_total_pages_spec [] [] ⟨none, none, 1, 10⟩
